import Mathlib

/-!
Shallow embedding of `src/lambda/receipt_processor.py` (serverless receipt
processing Lambda) and verification of its specification claims.

Python dictionaries whose values are `str or None` are modelled as
association lists `List (String × Option String)` built only through
`dictSet` (Python `d[k] = v`: overwrite in place when the key exists,
append otherwise), so keys stay unique.  Python string truthiness
(`if s:` — false for `None` and `""`) is `pyTruthy`; `a or b` on such
optional strings is `pyOr`.  The AWS side effects (Textract call,
DynamoDB put, SES send) are injected as oracle arguments and recorded
in an effect trace.
-/

namespace ReceiptProcessor

/-- Python truthiness of an optional string: `None` and `""` are falsy. -/
def pyTruthy : Option String → Bool
  | none => false
  | some s => decide (s ≠ "")

/-- Python `a or b` on optional strings: `a` when truthy, else `b`. -/
def pyOr (a b : Option String) : Option String :=
  if pyTruthy a then a else b

/-- Python `a or b` on plain strings: `a` when non-empty, else `b`. -/
def pyOrStr (a b : String) : String :=
  if a = "" then b else a

/-- Source `_coalesce(value, default)`: `value` unless it is `None`. -/
def coalesce (value : Option String) (default : String) : String :=
  match value with
  | some s => s
  | none => default

/-- Python `str(v)` as used in f-strings: `None` renders as `"None"`. -/
def pyStr : Option String → String
  | some s => s
  | none => "None"

/-- Python dict lookup `k in d` / `d[k]`: value stored at the first
(and, for dicts built by `dictSet`, only) occurrence of key `k`. -/
def dictGet? : List (String × α) → String → Option α
  | [], _ => none
  | (k', v) :: rest, k => if k' = k then some v else dictGet? rest k

/-- Python `d.get(k, default)`. -/
def pyGet (d : List (String × α)) (k : String) (default : α) : α :=
  match dictGet? d k with
  | some v => v
  | none => default

/-- Python dict assignment `d[k] = v`: overwrite in place when present,
append when absent. -/
def dictSet : List (String × α) → String → α → List (String × α)
  | [], k, v => [(k, v)]
  | (k', v') :: rest, k, v =>
      if k' = k then (k, v) :: rest else (k', v') :: dictSet rest k v

/-- A Textract expense field.  `typeText` models
`field.get("Type", \x7b\x7d).get("Text")` (so `none` covers both a missing
`Type` sub-dict and a `Type` without `Text`), `labelText` models the
`LabelDetection` text and `valueText` the `ValueDetection` text. -/
structure ExpenseField where
  typeText : Option String
  labelText : Option String
  valueText : Option String
deriving DecidableEq, Repr

/-- One line item of a `LineItemGroup`: its `LineItemExpenseFields` list. -/
structure RawLineItem where
  lineItemExpenseFields : List ExpenseField
deriving DecidableEq, Repr

/-- A Textract `LineItemGroup`: its `LineItems` list. -/
structure LineItemGroup where
  lineItems : List RawLineItem
deriving DecidableEq, Repr

/-- A Textract `ExpenseDocument` (the parts the handler reads). -/
structure ExpenseDoc where
  summaryFields : List ExpenseField
  lineItemGroups : List LineItemGroup
deriving DecidableEq, Repr

/-- Textract `analyze_expense` response: its `ExpenseDocuments` list. -/
structure TxResponse where
  expenseDocuments : List ExpenseDoc
deriving DecidableEq, Repr

/-- Resolved type label of a summary field: the `Type` text when truthy,
else the `LabelDetection` text when truthy, else none
(source `_parse_summary_fields`, lines 29-33). -/
def summaryLabel (f : ExpenseField) : Option String :=
  if pyTruthy f.typeText then f.typeText
  else if pyTruthy f.labelText then f.labelText
  else none

/-- Loop body accumulator of `_parse_summary_fields`: fold the field list
over the output dict, inserting `out[ftype] = val` when `ftype` is truthy. -/
def parseSummaryAux (out : List (String × Option String)) :
    List ExpenseField → List (String × Option String)
  | [] => out
  | f :: rest =>
      match summaryLabel f with
      | some t => parseSummaryAux (dictSet out t f.valueText) rest
      | none => parseSummaryAux out rest

/-- Source `_parse_summary_fields`: convert the summary field list into a
dict keyed by resolved type label, last write wins. -/
def parse_summary_fields (fields : List ExpenseField) : List (String × Option String) :=
  parseSummaryAux [] fields

/-- Inner loop of `_parse_line_items` (lines 45-49): build the per-item raw
label-to-value dict, with `t = Type text or LabelDetection text` and
`item[t] = v` only when `t` is truthy. -/
def parseItemFields (item : List (String × Option String)) :
    List ExpenseField → List (String × Option String)
  | [] => item
  | f :: rest =>
      match pyOr f.typeText f.labelText with
      | some t =>
          if t ≠ "" then parseItemFields (dictSet item t f.valueText) rest
          else parseItemFields item rest
      | none => parseItemFields item rest

/-- A normalized line item (source lines 51-57).  The four normalized
values are Python `str or None`: `item.get(k, default)` returns the stored
value even when that value is `None`, so `none` can occur. -/
structure LineItem where
  description : Option String
  quantity : Option String
  unit_price : Option String
  total : Option String
  raw : List (String × Option String)
deriving DecidableEq, Repr

/-- Normalization of one raw item dict (source lines 51-57):
`item.get("ITEM", item.get("DESCRIPTION", ""))` and friends. -/
def normalizeItem (item : List (String × Option String)) : LineItem :=
  { description := pyGet item "ITEM" (pyGet item "DESCRIPTION" (some ""))
  , quantity := pyGet item "QUANTITY" (some "")
  , unit_price := pyGet item "PRICE" (pyGet item "UNIT_PRICE" (some ""))
  , total := pyGet item "TOTAL" (pyGet item "LINE_TOTAL" (some ""))
  , raw := item }

/-- Source `_parse_line_items`: every group, every line item within the
group, in order, each normalized from its raw field dict. -/
def parse_line_items (groups : List LineItemGroup) : List LineItem :=
  (groups.map (fun g =>
    g.lineItems.map (fun li => normalizeItem (parseItemFields [] li.lineItemExpenseFields)))).flatten

/-- Normalization step of the handler (source lines 83-91): empty document
list gives an empty summary and item list, otherwise only the first
document is parsed. -/
def normalize (docs : List ExpenseDoc) :
    List (String × Option String) × List LineItem :=
  match docs with
  | [] => ([], [])
  | doc :: _ => (parse_summary_fields doc.summaryFields, parse_line_items doc.lineItemGroups)

/-- The `s3` sub-structure of an S3 event record: `rec["s3"]["bucket"]["name"]`
and `rec["s3"]["object"]["key"]`. -/
structure S3Entry where
  bucketName : String
  objectKey : String
deriving DecidableEq, Repr

/-- One element of `event["Records"]`; `s3` is `none` when
`rec.get("s3")` is absent or falsy. -/
structure EventRecord where
  s3 : Option S3Entry
deriving DecidableEq, Repr

/-- An invocation payload: an optional `Records` list and the optional
top-level `bucket` / `key` strings. -/
structure Event where
  records : Option (List EventRecord)
  bucket : Option String
  key : Option String
deriving DecidableEq, Repr

/-- Errors the handler can raise, named after the specification taxonomy.
`invalidInvocation` is the source's `ValueError` for a bad manual payload,
`extractionServiceError` the re-raised Textract `ClientError`,
`persistenceError` an exception out of `table.put_item`, and
`notificationFailure` a non-`ClientError` exception out of
`ses.send_email` (only `ClientError` is caught there). -/
inductive HandlerErr where
  | invalidInvocation
  | extractionServiceError
  | persistenceError
  | notificationFailure
deriving DecidableEq, Repr

/-- Outcome of the injected `ses.send_email` call. -/
inductive SendOutcome where
  | ok
  | clientError
  | otherError
deriving DecidableEq, Repr

/-- The persisted DynamoDB item (source lines 96-108). -/
structure ReceiptRecord where
  receipt_id : String
  s3_bucket : String
  s3_key : String
  inserted_at : String
  summary : List (String × Option String)
  line_items : List LineItem
  textract_api : String
  textract_doc_count : Nat
deriving DecidableEq, Repr

/-- The handler's return value (source line 175). -/
structure Output where
  status : String
  receipt_id : String
  summary : List (String × Option String)
  line_items_count : Nat
deriving DecidableEq, Repr

/-- External calls the handler performs, in order. -/
inductive Effect where
  | textractCall (bucket key : String)
  | putItem (record : ReceiptRecord)
  | sendEmail (subject textBody htmlBody : String)
deriving DecidableEq, Repr

/-- Whether the storage-event branch is taken (source line 64):
`"Records" in event and event["Records"] and event["Records"][0].get("s3")`. -/
def storageShape : Event → Bool
  | ⟨some (r :: _), _, _⟩ => r.s3.isSome
  | _ => false

/-- Manual-invocation branch (source lines 69-72): top-level `bucket` and
`key`, `ValueError` (`invalidInvocation`) unless both are truthy. -/
def manualAdapt (event : Event) : Except HandlerErr (String × String) :=
  if pyTruthy event.bucket && pyTruthy event.key then
    Except.ok (event.bucket.getD "", event.key.getD "")
  else
    Except.error HandlerErr.invalidInvocation

/-- Trigger adaptation (source lines 64-72).  The storage-event branch
takes bucket and key from the first record without any emptiness check;
otherwise the manual branch applies. -/
def adaptTrigger (event : Event) : Except HandlerErr (String × String) :=
  match event.records with
  | some (r :: _) =>
      match r.s3 with
      | some s => Except.ok (s.bucketName, s.objectKey)
      | none => manualAdapt event
  | _ => manualAdapt event

/-- Record construction (source lines 96-108). -/
def buildRecord (receiptId bucket key nowIso : String)
    (summary : List (String × Option String)) (items : List LineItem)
    (docCount : Nat) : ReceiptRecord :=
  { receipt_id := receiptId
  , s3_bucket := bucket
  , s3_key := key
  , inserted_at := nowIso
  , summary := summary
  , line_items := items
  , textract_api := "AnalyzeExpense"
  , textract_doc_count := docCount }

/-- Python `summary.get(k)`: `None` when the key is absent, the stored
(possibly `None`) value when present. -/
def sGet (summary : List (String × Option String)) (k : String) : Option String :=
  match dictGet? summary k with
  | some v => v
  | none => none

/-- `_coalesce(a or b or c, default)` — the synonym-fallback shape used
for vendor, date and total (source lines 114-116). -/
def resolve3 (a b c : Option String) (default : String) : String :=
  coalesce (pyOr (pyOr a b) c) default

/-- Vendor resolution (source line 114). -/
def resolveVendor (summary : List (String × Option String)) : String :=
  resolve3 (sGet summary "VENDOR_NAME") (sGet summary "RECEIVER_NAME")
    (sGet summary "SUPPLIER_NAME") "Unknown vendor"

/-- Date resolution (source line 115). -/
def resolveDate (summary : List (String × Option String)) : String :=
  resolve3 (sGet summary "INVOICE_RECEIPT_DATE") (sGet summary "INVOICE_DATE")
    (sGet summary "RECEIPT_DATE") "Unknown date"

/-- Total resolution (source line 116). -/
def resolveTotal (summary : List (String × Option String)) : String :=
  resolve3 (sGet summary "TOTAL") (sGet summary "AMOUNT_DUE")
    (sGet summary "INVOICE_TOTAL") "Unknown total"

/-- One plain-text preview line (source line 119).  The four keys are
always present in a normalized item, so the `'?'` defaults of
`i.get('description', '?')` are never taken; a `None` value renders
as `"None"` in the f-string. -/
def fmtTextLine (i : LineItem) : String :=
  "- " ++ pyStr i.description ++ "  qty=" ++ pyStr i.quantity ++
    "  price=" ++ pyStr i.unit_price ++ "  total=" ++ pyStr i.total

/-- Plain-text line-item preview (source lines 118-121):
`"\n".join(... for i in items[:10]) or "(no line items detected)"`. -/
def linesPreview (items : List LineItem) : String :=
  pyOrStr (String.intercalate "\n" ((items.take 10).map fmtTextLine))
    "(no line items detected)"

/-- One HTML table row (source line 140). -/
def fmtHtmlRow (i : LineItem) : String :=
  "<tr><td>" ++ pyStr i.description ++ "</td><td>" ++ pyStr i.quantity ++
    "</td><td>" ++ pyStr i.unit_price ++ "</td><td>" ++ pyStr i.total ++
    "</td></tr>"

/-- Fallback row rendered when there are no line items (source line 142). -/
def noItemsRow : String :=
  "<tr><td colspan=\x274\x27>(no line items detected)</td></tr>"

/-- HTML line-item rows (source lines 139-142):
`"".join(... for i in items[:50]) or noItemsRow`. -/
def htmlItems (items : List LineItem) : String :=
  pyOrStr (String.join ((items.take 50).map fmtHtmlRow)) noItemsRow

/-- The plain-text email body (source lines 123-137). -/
def mkTextBody (vendor date total : String) (items : List LineItem)
    (receiptId bucket key nowIso : String) : String :=
  "\nYour receipt has been processed.\n\nVendor: " ++ vendor ++
    "\nDate:   " ++ date ++ "\nTotal:  " ++ total ++
    "\n\nTop line items:\n" ++ linesPreview items ++
    "\n\nMetadata:\n- Receipt ID: " ++ receiptId ++
    "\n- S3: s3://" ++ bucket ++ "/" ++ key ++
    "\n- Inserted at: " ++ nowIso ++ "\n"

/-- The HTML email body (source lines 144-156). -/
def mkHtmlBody (vendor date total : String) (items : List LineItem)
    (receiptId bucket key nowIso : String) : String :=
  "<html><body>\n<h2>Receipt processed</h2>\n<p><strong>Vendor</strong>: " ++
    vendor ++ "<br/>\n<strong>Date</strong>: " ++ date ++
    "<br/>\n<strong>Total</strong>: " ++ total ++
    "</p>\n<table border=\"1\" cellspacing=\"0\" cellpadding=\"6\">\n" ++
    "<thead><tr><th>Description</th><th>Qty</th><th>Unit Price</th><th>Line Total</th></tr></thead>\n" ++
    "<tbody>" ++ htmlItems items ++ "</tbody>\n</table>\n<p>Receipt ID: " ++
    receiptId ++ "<br/>\nS3: s3://" ++ bucket ++ "/" ++ key ++
    "<br/>\nInserted at: " ++ nowIso ++ "</p>\n</body></html>"

/-- The email subject (source line 164). -/
def mkSubject (vendor date total : String) : String :=
  "Receipt processed: " ++ vendor ++ " on " ++ date ++ " (Total " ++ total ++ ")"

/-- The Lambda handler (source lines 61-175), with the generated
`receipt_id`, the timestamp and the three AWS calls injected as
arguments.  Returns the invocation result (success output or
propagated exception) together with the trace of external calls
attempted, in order.  A `ClientError` from `ses.send_email` is caught
and suppressed; any other exception from the send propagates. -/
def handler (event : Event) (receiptId nowIso : String)
    (tx : Except Unit TxResponse) (put : Except Unit Unit)
    (send : SendOutcome) : Except HandlerErr Output × List Effect :=
  match adaptTrigger event with
  | Except.error e => (Except.error e, [])
  | Except.ok bk =>
      let bucket := bk.1
      let key := bk.2
      match tx with
      | Except.error _ =>
          (Except.error HandlerErr.extractionServiceError, [Effect.textractCall bucket key])
      | Except.ok resp =>
          let norm := normalize resp.expenseDocuments
          let summary := norm.1
          let items := norm.2
          let record := buildRecord receiptId bucket key nowIso summary items
            resp.expenseDocuments.length
          match put with
          | Except.error _ =>
              (Except.error HandlerErr.persistenceError,
                [Effect.textractCall bucket key, Effect.putItem record])
          | Except.ok _ =>
              let vendor := resolveVendor summary
              let date := resolveDate summary
              let total := resolveTotal summary
              let effs := [Effect.textractCall bucket key, Effect.putItem record,
                Effect.sendEmail (mkSubject vendor date total)
                  (mkTextBody vendor date total items receiptId bucket key nowIso)
                  (mkHtmlBody vendor date total items receiptId bucket key nowIso)]
              match send with
              | SendOutcome.otherError => (Except.error HandlerErr.notificationFailure, effs)
              | _ =>
                  (Except.ok
                    { status := "ok", receipt_id := receiptId,
                      summary := summary, line_items_count := items.length }, effs)

theorem dictGet?_dictSet (d : List (String × α)) (k : String) (v : α) (t : String) :
    dictGet? (dictSet d k v) t = if k = t then some v else dictGet? d t := by
  induction d with
  | nil => simp [dictSet, dictGet?]
  | cons p rest ih =>
      obtain ⟨k', v'⟩ := p
      by_cases hk : k' = k
      · subst hk
        simp only [dictSet, if_pos rfl, dictGet?]
        by_cases ht : k' = t
        · subst ht; simp [dictGet?]
        · simp [dictGet?, ht]
      · simp only [dictSet, if_neg hk, dictGet?]
        by_cases ht : k' = t
        · subst ht
          have : ¬ k = k' := fun h => hk h.symm
          simp [dictGet?, this]
        · simp [dictGet?, ht, ih]

theorem mem_keys_dictSet (d : List (String × α)) (k : String) (v : α) (t : String) :
    t ∈ (dictSet d k v).map Prod.fst ↔ t = k ∨ t ∈ d.map Prod.fst := by
  induction d with
  | nil => simp [dictSet]
  | cons p rest ih =>
      obtain ⟨k', v'⟩ := p
      by_cases hk : k' = k
      · subst hk; simp [dictSet]
      · simp only [dictSet, if_neg hk, List.map_cons, List.mem_cons, ih]
        tauto

theorem nodup_keys_dictSet (d : List (String × α)) (k : String) (v : α)
    (h : (d.map Prod.fst).Nodup) : ((dictSet d k v).map Prod.fst).Nodup := by
  induction d with
  | nil => simp [dictSet]
  | cons p rest ih =>
      obtain ⟨k', v'⟩ := p
      simp only [List.map_cons, List.nodup_cons] at h
      by_cases hk : k' = k
      · subst hk
        simpa [dictSet, List.nodup_cons] using h
      · simp only [dictSet, if_neg hk, List.map_cons, List.nodup_cons]
        refine ⟨fun hmem => ?_, ih h.2⟩
        rcases (mem_keys_dictSet rest k v k').mp hmem with h1 | h1
        · exact hk h1
        · exact h.1 h1

theorem parseSummaryAux_get (t : String) (fields : List ExpenseField) :
    ∀ out, dictGet? (parseSummaryAux out fields) t =
      match fields.reverse.find? (fun f => decide (summaryLabel f = some t)) with
      | some f => some f.valueText
      | none => dictGet? out t := by
  induction fields with
  | nil => intro out; simp [parseSummaryAux]
  | cons f rest ih =>
      intro out
      rw [List.reverse_cons, List.find?_append]
      cases hrest : rest.reverse.find? (fun f => decide (summaryLabel f = some t)) with
      | some g =>
          cases hlab : summaryLabel f with
          | some l =>
              simp only [parseSummaryAux, hlab, ih, hrest, Option.or]
          | none =>
              simp only [parseSummaryAux, hlab, ih, hrest, Option.or]
      | none =>
          cases hlab : summaryLabel f with
          | some l =>
              simp only [parseSummaryAux, hlab, ih, hrest, Option.or,
                List.find?_cons, List.find?_nil]
              by_cases hlt : l = t
              · subst hlt
                simp [dictGet?_dictSet]
              · have : (summaryLabel f = some t) = False := by
                  simp [hlab, hlt]
                simp [this, dictGet?_dictSet, hlt]
          | none =>
              simp only [parseSummaryAux, hlab, ih, hrest, Option.or,
                List.find?_cons, List.find?_nil]
              have : (summaryLabel f = some t) = False := by simp [hlab]
              simp [this]

theorem parseSummaryAux_nodup (fields : List ExpenseField) :
    ∀ out, (out.map Prod.fst).Nodup →
      ((parseSummaryAux out fields).map Prod.fst).Nodup := by
  induction fields with
  | nil => intro out h; simpa [parseSummaryAux] using h
  | cons f rest ih =>
      intro out h
      cases hlab : summaryLabel f with
      | some l =>
          simp only [parseSummaryAux, hlab]
          exact ih _ (nodup_keys_dictSet out l f.valueText h)
      | none =>
          simp only [parseSummaryAux, hlab]
          exact ih _ h

/-- C5: for every summary-field list, the parsed summary maps a resolved
type label to the detected value of the last entry (in list order) whose
label resolves to it — later entries overwrite earlier ones — and every
key appears at most once in the summary. -/
theorem c5_summary_last_write_wins (fields : List ExpenseField) (t : String) :
    dictGet? (parse_summary_fields fields) t =
      (fields.reverse.find? (fun f => decide (summaryLabel f = some t))).map
        (fun f => f.valueText) ∧
    ((parse_summary_fields fields).map Prod.fst).Nodup := by
  constructor
  · rw [parse_summary_fields, parseSummaryAux_get]
    cases fields.reverse.find? (fun f => decide (summaryLabel f = some t)) with
    | some g => simp
    | none => simp [dictGet?]
  · exact parseSummaryAux_nodup fields [] (by simp)

/-- C6: each normalized line-item attribute comes from its raw mapping by
synonym fallback on key presence — description from `ITEM` else
`DESCRIPTION` else `""`, quantity from `QUANTITY` else `""`, unit price
from `PRICE` else `UNIT_PRICE` else `""`, total from `TOTAL` else
`LINE_TOTAL` else `""`; in particular `PRICE` present (whatever its
value) and `UNIT_PRICE` absent gives the `PRICE` value, and neither
present gives the empty string. -/
theorem c6_item_synonym_fallback (item : List (String × Option String)) :
    (∀ v, dictGet? item "ITEM" = some v → (normalizeItem item).description = v) ∧
    (dictGet? item "ITEM" = none →
      ∀ v, dictGet? item "DESCRIPTION" = some v → (normalizeItem item).description = v) ∧
    (dictGet? item "ITEM" = none → dictGet? item "DESCRIPTION" = none →
      (normalizeItem item).description = some "") ∧
    (∀ v, dictGet? item "QUANTITY" = some v → (normalizeItem item).quantity = v) ∧
    (dictGet? item "QUANTITY" = none → (normalizeItem item).quantity = some "") ∧
    (∀ v, dictGet? item "PRICE" = some v → (normalizeItem item).unit_price = v) ∧
    (dictGet? item "PRICE" = none →
      ∀ v, dictGet? item "UNIT_PRICE" = some v → (normalizeItem item).unit_price = v) ∧
    (dictGet? item "PRICE" = none → dictGet? item "UNIT_PRICE" = none →
      (normalizeItem item).unit_price = some "") ∧
    (∀ v, dictGet? item "TOTAL" = some v → (normalizeItem item).total = v) ∧
    (dictGet? item "TOTAL" = none →
      ∀ v, dictGet? item "LINE_TOTAL" = some v → (normalizeItem item).total = v) ∧
    (dictGet? item "TOTAL" = none → dictGet? item "LINE_TOTAL" = none →
      (normalizeItem item).total = some "") := by
  refine ⟨?_, ?_, ?_, ?_, ?_, ?_, ?_, ?_, ?_, ?_, ?_⟩
  · intro v h; simp [normalizeItem, pyGet, h]
  · intro h1 v h2; simp [normalizeItem, pyGet, h1, h2]
  · intro h1 h2; simp [normalizeItem, pyGet, h1, h2]
  · intro v h; simp [normalizeItem, pyGet, h]
  · intro h; simp [normalizeItem, pyGet, h]
  · intro v h; simp [normalizeItem, pyGet, h]
  · intro h1 v h2; simp [normalizeItem, pyGet, h1, h2]
  · intro h1 h2; simp [normalizeItem, pyGet, h1, h2]
  · intro v h; simp [normalizeItem, pyGet, h]
  · intro h1 v h2; simp [normalizeItem, pyGet, h1, h2]
  · intro h1 h2; simp [normalizeItem, pyGet, h1, h2]

/-- C6 witness: on the raw mapping with only `PRICE = "5"`, the unit
price is `"5"` and the description falls back to the empty string. -/
theorem c6_item_synonym_fallback_witness :
    dictGet? [("PRICE", (some "5" : Option String))] "PRICE" = some (some "5") ∧
    (normalizeItem [("PRICE", some "5")]).unit_price = some "5" ∧
    (normalizeItem [("PRICE", some "5")]).description = some "" :=
  ⟨rfl,
    (c6_item_synonym_fallback [("PRICE", some "5")]).2.2.2.2.2.1 (some "5") rfl,
    (c6_item_synonym_fallback [("PRICE", some "5")]).2.2.1 rfl rfl⟩

theorem resolve3_first (a b c : Option String) (d v : String)
    (ha : a = some v) (hv : v ≠ "") : resolve3 a b c d = v := by
  subst ha; simp [resolve3, pyOr, pyTruthy, hv, coalesce]

theorem resolve3_second (a b c : Option String) (d v : String)
    (ha : pyTruthy a = false) (hb : b = some v) (hv : v ≠ "") :
    resolve3 a b c d = v := by
  subst hb
  simp only [resolve3, pyOr]
  rw [ha]
  simp [pyTruthy, hv, coalesce]

theorem resolve3_third (a b c : Option String) (d v : String)
    (ha : pyTruthy a = false) (hb : pyTruthy b = false) (hc : c = some v)
    (_hv : v ≠ "") : resolve3 a b c d = v := by
  subst hc
  simp only [resolve3, pyOr]
  rw [ha]
  simp only [Bool.false_eq_true, if_false]
  rw [hb]
  simp [pyTruthy, coalesce]

theorem resolve3_default (a b c : Option String) (d : String)
    (ha : a = none) (hb : b = none) (hc : c = none) : resolve3 a b c d = d := by
  subst ha; subst hb; subst hc; simp [resolve3, pyOr, pyTruthy, coalesce]

/-- C7: vendor resolves from `VENDOR_NAME`, else `RECEIVER_NAME`, else
`SUPPLIER_NAME` (a key being skipped when missing or its value falsy),
date from `INVOICE_RECEIPT_DATE` / `INVOICE_DATE` / `RECEIPT_DATE`,
total from `TOTAL` / `AMOUNT_DUE` / `INVOICE_TOTAL`; and whenever none
of a field's candidate keys is present in the summary, the literal
fallback `"Unknown vendor"` / `"Unknown date"` / `"Unknown total"` is
produced. -/
theorem c7_render_resolution (s : List (String × Option String)) :
    (∀ v, sGet s "VENDOR_NAME" = some v → v ≠ "" → resolveVendor s = v) ∧
    (pyTruthy (sGet s "VENDOR_NAME") = false →
      ∀ v, sGet s "RECEIVER_NAME" = some v → v ≠ "" → resolveVendor s = v) ∧
    (pyTruthy (sGet s "VENDOR_NAME") = false →
      pyTruthy (sGet s "RECEIVER_NAME") = false →
      ∀ v, sGet s "SUPPLIER_NAME" = some v → v ≠ "" → resolveVendor s = v) ∧
    (dictGet? s "VENDOR_NAME" = none → dictGet? s "RECEIVER_NAME" = none →
      dictGet? s "SUPPLIER_NAME" = none → resolveVendor s = "Unknown vendor") ∧
    (∀ v, sGet s "INVOICE_RECEIPT_DATE" = some v → v ≠ "" → resolveDate s = v) ∧
    (pyTruthy (sGet s "INVOICE_RECEIPT_DATE") = false →
      ∀ v, sGet s "INVOICE_DATE" = some v → v ≠ "" → resolveDate s = v) ∧
    (pyTruthy (sGet s "INVOICE_RECEIPT_DATE") = false →
      pyTruthy (sGet s "INVOICE_DATE") = false →
      ∀ v, sGet s "RECEIPT_DATE" = some v → v ≠ "" → resolveDate s = v) ∧
    (dictGet? s "INVOICE_RECEIPT_DATE" = none → dictGet? s "INVOICE_DATE" = none →
      dictGet? s "RECEIPT_DATE" = none → resolveDate s = "Unknown date") ∧
    (∀ v, sGet s "TOTAL" = some v → v ≠ "" → resolveTotal s = v) ∧
    (pyTruthy (sGet s "TOTAL") = false →
      ∀ v, sGet s "AMOUNT_DUE" = some v → v ≠ "" → resolveTotal s = v) ∧
    (pyTruthy (sGet s "TOTAL") = false → pyTruthy (sGet s "AMOUNT_DUE") = false →
      ∀ v, sGet s "INVOICE_TOTAL" = some v → v ≠ "" → resolveTotal s = v) ∧
    (dictGet? s "TOTAL" = none → dictGet? s "AMOUNT_DUE" = none →
      dictGet? s "INVOICE_TOTAL" = none → resolveTotal s = "Unknown total") := by
  refine ⟨?_, ?_, ?_, ?_, ?_, ?_, ?_, ?_, ?_, ?_, ?_, ?_⟩
  · intro v h hv; exact resolve3_first _ _ _ _ _ h hv
  · intro h1 v h2 hv; exact resolve3_second _ _ _ _ _ h1 h2 hv
  · intro h1 h2 v h3 hv; exact resolve3_third _ _ _ _ _ h1 h2 h3 hv
  · intro h1 h2 h3
    exact resolve3_default _ _ _ _ (by simp [sGet, h1]) (by simp [sGet, h2])
      (by simp [sGet, h3])
  · intro v h hv; exact resolve3_first _ _ _ _ _ h hv
  · intro h1 v h2 hv; exact resolve3_second _ _ _ _ _ h1 h2 hv
  · intro h1 h2 v h3 hv; exact resolve3_third _ _ _ _ _ h1 h2 h3 hv
  · intro h1 h2 h3
    exact resolve3_default _ _ _ _ (by simp [sGet, h1]) (by simp [sGet, h2])
      (by simp [sGet, h3])
  · intro v h hv; exact resolve3_first _ _ _ _ _ h hv
  · intro h1 v h2 hv; exact resolve3_second _ _ _ _ _ h1 h2 hv
  · intro h1 h2 v h3 hv; exact resolve3_third _ _ _ _ _ h1 h2 h3 hv
  · intro h1 h2 h3
    exact resolve3_default _ _ _ _ (by simp [sGet, h1]) (by simp [sGet, h2])
      (by simp [sGet, h3])

/-- C7 witness: on the summary containing only `TOTAL = "42.00"`, the
total resolves to `"42.00"` and vendor and date fall back to their
`Unknown` literals. -/
theorem c7_render_resolution_witness :
    sGet [("TOTAL", (some "42.00" : Option String))] "TOTAL" = some "42.00" ∧
    resolveTotal [("TOTAL", some "42.00")] = "42.00" ∧
    resolveVendor [("TOTAL", some "42.00")] = "Unknown vendor" ∧
    resolveDate [("TOTAL", some "42.00")] = "Unknown date" :=
  ⟨rfl,
    (c7_render_resolution [("TOTAL", some "42.00")]).2.2.2.2.2.2.2.2.1 "42.00" rfl
      (by decide),
    (c7_render_resolution [("TOTAL", some "42.00")]).2.2.2.1 rfl rfl rfl,
    (c7_render_resolution [("TOTAL", some "42.00")]).2.2.2.2.2.2.2.1 rfl rfl rfl⟩

theorem intercalate_go_length (l : List String) : ∀ (acc s : String),
    acc.length ≤ (String.intercalate.go acc s l).length := by
  induction l with
  | nil => intro acc s; simp [String.intercalate.go]
  | cons a as ih =>
      intro acc s
      calc acc.length ≤ (acc ++ s ++ a).length := by
            simp [String.length_append]; omega
        _ ≤ (String.intercalate.go (acc ++ s ++ a) s as).length := ih _ s

theorem intercalate_cons_ne_empty (a : String) (as : List String) (s : String)
    (ha : a.length ≠ 0) : String.intercalate s (a :: as) ≠ "" := by
  intro h
  have h1 : a.length ≤ (String.intercalate s (a :: as)).length := by
    simpa [String.intercalate] using intercalate_go_length as a s
  rw [h] at h1
  exact ha (Nat.le_zero.mp h1)

theorem foldl_append_length (l : List String) : ∀ (acc : String),
    acc.length ≤ (List.foldl (fun r s => r ++ s) acc l).length := by
  induction l with
  | nil => intro acc; simp
  | cons a as ih =>
      intro acc
      calc acc.length ≤ (acc ++ a).length := by simp [String.length_append]
        _ ≤ _ := ih _

theorem join_cons_ne_empty (a : String) (as : List String)
    (ha : a.length ≠ 0) : String.join (a :: as) ≠ "" := by
  intro h
  have h1 : ("" ++ a).length ≤ (String.join (a :: as)).length := by
    simpa [String.join, List.foldl] using foldl_append_length as ("" ++ a)
  rw [h] at h1
  simp [String.length_append] at h1
  exact ha h1

theorem fmtTextLine_length_ne_zero (i : LineItem) : (fmtTextLine i).length ≠ 0 := by
  have h2 : ("- ").length ≤ (fmtTextLine i).length := by
    simp only [fmtTextLine, String.length_append]; omega
  have h3 : ("- ").length = 2 := by decide
  omega

theorem fmtHtmlRow_length_ne_zero (i : LineItem) : (fmtHtmlRow i).length ≠ 0 := by
  have h2 : ("<tr><td>").length ≤ (fmtHtmlRow i).length := by
    simp only [fmtHtmlRow, String.length_append]; omega
  have h3 : ("<tr><td>").length = 8 := by decide
  omega

/-- C8: the plain-text preview renders exactly the first min(10, length)
items in order and the HTML table exactly the first min(50, length)
items in order, and an empty line-item list renders the literal
fallback text in both bodies. -/
theorem c8_preview_limits (items : List LineItem) :
    (items.take 10).length = min 10 items.length ∧
    (items.take 50).length = min 50 items.length ∧
    (items ≠ [] →
      linesPreview items = String.intercalate "\n" ((items.take 10).map fmtTextLine) ∧
      htmlItems items = String.join ((items.take 50).map fmtHtmlRow)) ∧
    (items = [] →
      linesPreview items = "(no line items detected)" ∧
      htmlItems items = "<tr><td colspan=\x274\x27>(no line items detected)</td></tr>") := by
  refine ⟨List.length_take 10 items, List.length_take 50 items, ?_, ?_⟩
  · intro hne
    obtain ⟨i, rest, rfl⟩ : ∃ i rest, items = i :: rest := by
      cases items with
      | nil => exact absurd rfl hne
      | cons i rest => exact ⟨i, rest, rfl⟩
    constructor
    · have htake : (i :: rest).take 10 = i :: rest.take 9 := rfl
      have hint : String.intercalate "\n" (((i :: rest).take 10).map fmtTextLine) ≠ "" := by
        rw [htake, List.map_cons]
        exact intercalate_cons_ne_empty _ _ _ (fmtTextLine_length_ne_zero i)
      simp only [linesPreview, pyOrStr]
      rw [if_neg hint]
    · have htake : (i :: rest).take 50 = i :: rest.take 49 := rfl
      have hjoin : String.join (((i :: rest).take 50).map fmtHtmlRow) ≠ "" := by
        rw [htake, List.map_cons]
        exact join_cons_ne_empty _ _ (fmtHtmlRow_length_ne_zero i)
      simp only [htmlItems, pyOrStr]
      rw [if_neg hjoin]
  · intro h
    subst h
    constructor
    · simp [linesPreview, pyOrStr, String.intercalate]
    · simp [htmlItems, pyOrStr, String.join, noItemsRow]

/-- C8 witness: the empty list renders both fallbacks, and a singleton
list renders its single formatted line and row. -/
theorem c8_preview_limits_witness :
    (linesPreview [] = "(no line items detected)" ∧
      htmlItems [] = "<tr><td colspan=\x274\x27>(no line items detected)</td></tr>") ∧
    linesPreview [⟨some "a", some "1", some "2", some "3", []⟩] =
      String.intercalate "\n"
        (([(⟨some "a", some "1", some "2", some "3", []⟩ : LineItem)].take 10).map fmtTextLine) :=
  ⟨(c8_preview_limits []).2.2.2 rfl,
    ((c8_preview_limits [⟨some "a", some "1", some "2", some "3", []⟩]).2.2.1
      (by simp)).1⟩

/-- C2: when the persistence write raises, the invocation propagates the
persistence failure (no output summary), the external calls are exactly
the extraction call followed by the failed write, and the notification
send is never attempted. -/
theorem c2_persist_failure_aborts (event : Event) (b k rid now : String)
    (txr : TxResponse) (send : SendOutcome)
    (h : adaptTrigger event = Except.ok (b, k)) :
    handler event rid now (Except.ok txr) (Except.error ()) send =
      (Except.error HandlerErr.persistenceError,
        [Effect.textractCall b k,
         Effect.putItem (buildRecord rid b k now (normalize txr.expenseDocuments).1
            (normalize txr.expenseDocuments).2 txr.expenseDocuments.length)]) ∧
    (∀ subj tb hb, Effect.sendEmail subj tb hb ∉
      (handler event rid now (Except.ok txr) (Except.error ()) send).2) := by
  have he : handler event rid now (Except.ok txr) (Except.error ()) send =
      (Except.error HandlerErr.persistenceError,
        [Effect.textractCall b k,
         Effect.putItem (buildRecord rid b k now (normalize txr.expenseDocuments).1
            (normalize txr.expenseDocuments).2 txr.expenseDocuments.length)]) := by
    simp [handler, h]
  refine ⟨he, fun subj tb hb => ?_⟩
  rw [he]
  simp

/-- C2 witness: payload with bucket and key, Textract succeeding with no
documents, and a failing put. -/
theorem c2_persist_failure_aborts_witness :
    adaptTrigger ⟨none, some "b", some "k"⟩ = Except.ok ("b", "k") ∧
    (handler ⟨none, some "b", some "k"⟩ "r" "t" (Except.ok ⟨[]⟩) (Except.error ())
        SendOutcome.ok).1 = Except.error HandlerErr.persistenceError :=
  ⟨rfl, by
    have h := (c2_persist_failure_aborts ⟨none, some "b", some "k"⟩ "b" "k" "r" "t" ⟨[]⟩
      SendOutcome.ok rfl).1
    rw [h]⟩

/-- C3: when the notification send raises a `ClientError` after the
record was persisted, the failure is suppressed and the invocation still
returns the success output with the receipt_id of the persisted record. -/
theorem c3_notification_failure_suppressed (event : Event) (b k rid now : String)
    (txr : TxResponse) (h : adaptTrigger event = Except.ok (b, k)) :
    (handler event rid now (Except.ok txr) (Except.ok ()) SendOutcome.clientError).1 =
      Except.ok
        { status := "ok", receipt_id := rid,
          summary := (normalize txr.expenseDocuments).1,
          line_items_count := (normalize txr.expenseDocuments).2.length } ∧
    Effect.putItem (buildRecord rid b k now (normalize txr.expenseDocuments).1
        (normalize txr.expenseDocuments).2 txr.expenseDocuments.length)
      ∈ (handler event rid now (Except.ok txr) (Except.ok ()) SendOutcome.clientError).2 ∧
    (buildRecord rid b k now (normalize txr.expenseDocuments).1
        (normalize txr.expenseDocuments).2 txr.expenseDocuments.length).receipt_id = rid := by
  refine ⟨?_, ?_, rfl⟩ <;> simp [handler, h]

/-- C3 witness: send fails with `ClientError` after a successful put; the
invocation still reports ok with the generated receipt id. -/
theorem c3_notification_failure_suppressed_witness :
    adaptTrigger ⟨none, some "b", some "k"⟩ = Except.ok ("b", "k") ∧
    (handler ⟨none, some "b", some "k"⟩ "r" "t" (Except.ok ⟨[]⟩) (Except.ok ())
        SendOutcome.clientError).1 =
      Except.ok { status := "ok", receipt_id := "r", summary := [], line_items_count := 0 } :=
  ⟨rfl, by
    have h := (c3_notification_failure_suppressed ⟨none, some "b", some "k"⟩ "b" "k" "r" "t"
      ⟨[]⟩ rfl).1
    rw [h]
    rfl⟩

/-- C9: a raw extraction result with zero documents normalizes to an
empty summary and empty line-item list, and the invocation still
persists a record and returns the success output. -/
theorem c9_empty_documents_still_succeeds (event : Event) (b k rid now : String)
    (h : adaptTrigger event = Except.ok (b, k)) :
    normalize [] = ([], []) ∧
    (handler event rid now (Except.ok ⟨[]⟩) (Except.ok ()) SendOutcome.ok).1 =
      Except.ok { status := "ok", receipt_id := rid, summary := [], line_items_count := 0 } ∧
    Effect.putItem (buildRecord rid b k now [] [] 0)
      ∈ (handler event rid now (Except.ok ⟨[]⟩) (Except.ok ()) SendOutcome.ok).2 := by
  refine ⟨rfl, ?_, ?_⟩ <;> simp [handler, h, normalize]

/-- C9 witness: manual payload, Textract returning zero documents. -/
theorem c9_empty_documents_still_succeeds_witness :
    adaptTrigger ⟨none, some "b", some "k"⟩ = Except.ok ("b", "k") ∧
    (handler ⟨none, some "b", some "k"⟩ "r" "t" (Except.ok ⟨[]⟩) (Except.ok ())
        SendOutcome.ok).1 =
      Except.ok { status := "ok", receipt_id := "r", summary := [], line_items_count := 0 } :=
  ⟨rfl, by
    have h := (c9_empty_documents_still_succeeds ⟨none, some "b", some "k"⟩ "b" "k" "r" "t"
      rfl).2.1
    rw [h]⟩

/-- C10: only a `ClientError` from the notification send is suppressed —
the invocation then still succeeds — while any other exception from the
send step propagates and fails the invocation even though the record was
already persisted (the put effect is in the trace). -/
theorem c10_only_client_error_suppressed (event : Event) (b k rid now : String)
    (txr : TxResponse) (h : adaptTrigger event = Except.ok (b, k)) :
    (handler event rid now (Except.ok txr) (Except.ok ()) SendOutcome.clientError).1 =
      Except.ok
        { status := "ok", receipt_id := rid,
          summary := (normalize txr.expenseDocuments).1,
          line_items_count := (normalize txr.expenseDocuments).2.length } ∧
    (handler event rid now (Except.ok txr) (Except.ok ()) SendOutcome.otherError).1 =
      Except.error HandlerErr.notificationFailure ∧
    Effect.putItem (buildRecord rid b k now (normalize txr.expenseDocuments).1
        (normalize txr.expenseDocuments).2 txr.expenseDocuments.length)
      ∈ (handler event rid now (Except.ok txr) (Except.ok ()) SendOutcome.otherError).2 := by
  refine ⟨?_, ?_, ?_⟩ <;> simp [handler, h]

/-- C10 witness: a non-ClientError send failure makes the invocation
fail even though the record was persisted. -/
theorem c10_only_client_error_suppressed_witness :
    adaptTrigger ⟨none, some "b", some "k"⟩ = Except.ok ("b", "k") ∧
    (handler ⟨none, some "b", some "k"⟩ "r" "t" (Except.ok ⟨[]⟩) (Except.ok ())
        SendOutcome.otherError).1 = Except.error HandlerErr.notificationFailure :=
  ⟨rfl, by
    have h := (c10_only_client_error_suppressed ⟨none, some "b", some "k"⟩ "b" "k" "r" "t"
      ⟨[]⟩ rfl).2.1
    rw [h]⟩

/-- C4 counterexample: for the storage-event payload whose bucket name
and object key are both empty, neither shape yields a non-empty bucket
and key, yet the handler does not fail with `InvalidInvocation`: it
proceeds to make the external extraction call (here failing with the
extraction-service error instead). -/
theorem c4_counterexample :
    (handler ⟨some [⟨some ⟨"", ""⟩⟩], none, none⟩ "rid" "now" (Except.error ())
        (Except.ok ()) SendOutcome.ok).2 = [Effect.textractCall "" ""] ∧
    (handler ⟨some [⟨some ⟨"", ""⟩⟩], none, none⟩ "rid" "now" (Except.error ())
        (Except.ok ()) SendOutcome.ok).1 = Except.error HandlerErr.extractionServiceError ∧
    HandlerErr.extractionServiceError ≠ HandlerErr.invalidInvocation :=
  ⟨rfl, rfl, by decide⟩

/-- C4 (amended): when the storage-event branch is not taken (no
non-empty records list whose first element carries the s3 sub-structure)
and the top-level bucket and key are not both present and non-empty, the
invocation fails with `InvalidInvocation` before any external call; a
taken storage-event branch, by contrast, uses its bucket and key without
any emptiness validation. -/
theorem c4_amended_invalid_invocation (event : Event) (rid now : String)
    (tx : Except Unit TxResponse) (put : Except Unit Unit) (send : SendOutcome)
    (h1 : storageShape event = false)
    (h2 : pyTruthy event.bucket = false ∨ pyTruthy event.key = false) :
    handler event rid now tx put send = (Except.error HandlerErr.invalidInvocation, []) := by
  obtain ⟨recs, bu, ke⟩ := event
  have hman : manualAdapt ⟨recs, bu, ke⟩ = Except.error HandlerErr.invalidInvocation := by
    rcases h2 with h | h <;> simp [manualAdapt, h]
  have hadapt : adaptTrigger ⟨recs, bu, ke⟩ = Except.error HandlerErr.invalidInvocation := by
    cases recs with
    | none => simpa [adaptTrigger] using hman
    | some l =>
        cases l with
        | nil => simpa [adaptTrigger] using hman
        | cons r rest =>
            cases hs3 : r.s3 with
            | none => simpa [adaptTrigger, hs3] using hman
            | some s => simp [storageShape, hs3] at h1
  simp [handler, hadapt]

/-- C4 amended witness: the empty manual payload aborts with
`InvalidInvocation` and an empty effect trace. -/
theorem c4_amended_invalid_invocation_witness :
    storageShape ⟨none, none, none⟩ = false ∧
    handler ⟨none, none, none⟩ "rid" "now" (Except.error ()) (Except.ok ()) SendOutcome.ok =
      (Except.error HandlerErr.invalidInvocation, []) :=
  ⟨rfl, c4_amended_invalid_invocation ⟨none, none, none⟩ "rid" "now" (Except.error ())
    (Except.ok ()) SendOutcome.ok rfl (Or.inl rfl)⟩

/-- C1 counterexample: a line item whose single field has type `ITEM`
but no detected value text yields a normalized description that is the
null value, not the empty string — normalization does yield a
null/missing value for a present-but-valueless field. -/
theorem c1_counterexample :
    parse_line_items [⟨[⟨[⟨some "ITEM", none, none⟩]⟩]⟩] =
      [{ description := none, quantity := some "", unit_price := some "",
         total := some "", raw := [("ITEM", none)] }] ∧
    (none : Option String) ≠ some "" :=
  ⟨rfl, by simp⟩

/-- C1 (amended): each of the four normalized fields equals the empty
string when every one of its synonym keys is missing from the raw
mapping, but when a synonym key is present with no detected value text
the normalized field is the null value rather than the empty string;
normalization itself never fails on absent values. -/
theorem c1_amended_absent_values (item : List (String × Option String)) :
    (dictGet? item "ITEM" = none → dictGet? item "DESCRIPTION" = none →
      (normalizeItem item).description = some "") ∧
    (dictGet? item "QUANTITY" = none → (normalizeItem item).quantity = some "") ∧
    (dictGet? item "PRICE" = none → dictGet? item "UNIT_PRICE" = none →
      (normalizeItem item).unit_price = some "") ∧
    (dictGet? item "TOTAL" = none → dictGet? item "LINE_TOTAL" = none →
      (normalizeItem item).total = some "") ∧
    (dictGet? item "ITEM" = some none → (normalizeItem item).description = none) ∧
    (dictGet? item "QUANTITY" = some none → (normalizeItem item).quantity = none) ∧
    (dictGet? item "PRICE" = some none → (normalizeItem item).unit_price = none) ∧
    (dictGet? item "TOTAL" = some none → (normalizeItem item).total = none) := by
  refine ⟨?_, ?_, ?_, ?_, ?_, ?_, ?_, ?_⟩ <;>
    (intros; simp [normalizeItem, pyGet, *])

/-- C1 amended witness: the empty raw mapping defaults every field to the
empty string, while a present `ITEM` key with absent value yields null. -/
theorem c1_amended_absent_values_witness :
    dictGet? ([] : List (String × Option String)) "ITEM" = none ∧
    (normalizeItem []).description = some "" ∧
    (normalizeItem [("ITEM", none)]).description = none :=
  ⟨rfl, (c1_amended_absent_values []).1 rfl rfl,
    (c1_amended_absent_values [("ITEM", none)]).2.2.2.2.1 rfl⟩

end ReceiptProcessor
